import Mathlib

/-!
Verification development for the gym-management web application
(`gym_app`): a shallow embedding of its membership / payment / kiosk /
analytics core (from `gym_app/models.py` and the relevant request
handlers of `gym_app/views.py`) together with theorems settling the
specification's claims about it.

Modelling conventions:
* calendar dates are day numbers (`Int`); timestamps are seconds (`Int`);
  `date.today()` and `timezone.now()` become explicit `today` / `now`
  parameters of each operation;
* money (`DecimalField(10,2)`) is an exact integer number of centavos
  (`Int`);
* the random number generator is an explicit list of pre-drawn 6-digit
  candidates (`Suffix6`); the source's unbounded retry loops become
  `Option`-returning searches over that list (`none` = the loop never
  terminates because every drawn candidate collides);
* each database table is a `List` of rows inside a `DB` record; Django
  `filter(...).first()` / `get(...)` become `List.find?`, `exists()`
  becomes `List.any`, row updates map over the list replacing the row
  with the matching primary key;
* nullable columns are `Option`; Django/Python truthiness tests on them
  (`if not self.reference_no`) are `Option.isNone` tests;
* fallible request handlers return `Except`; an `Except.error` models
  the handler refusing the request (redirect / 404 / error message)
  without touching the tables;
* demographic columns (`mobile_no`, `address`, `birthdate`, `age`) and
  the audit-log table are not referenced by any claim and are omitted.
-/

/-! ## Basic enumerations (`models.py` choice fields) -/

/-- `User.ROLE_CHOICES` (`models.py:11`). -/
inductive Role where
  | admin
  | staff
  | member
deriving DecidableEq, Repr

/-- `UserMembership.STATUS_CHOICES` (`models.py:199`). -/
inductive MStatus where
  | pending
  | active
  | expired
  | cancelled
deriving DecidableEq, Repr

/-- `Payment.PAYMENT_STATUS_CHOICES` (`models.py:254`). -/
inductive PayStatus where
  | pending
  | confirmed
  | rejected
deriving DecidableEq, Repr

/-! ## Random 6-digit draws

`random.randint(0, 9)` six times, joined into a string: used by
`Payment.generate_reference_number`, `WalkInPayment.generate_reference_number`
and `User.generate_kiosk_pin`. -/

/-- One pre-drawn batch of six random decimal digits. -/
structure Suffix6 where
  d1 : Fin 10
  d2 : Fin 10
  d3 : Fin 10
  d4 : Fin 10
  d5 : Fin 10
  d6 : Fin 10
deriving DecidableEq, Repr

/-- `str(random.randint(0, 9))` for a single digit. -/
def digitChar (d : Fin 10) : Char := Char.ofNat (48 + d.val)

/-- `''.join([str(random.randint(0, 9)) for _ in range(6)])`. -/
def Suffix6.render (s : Suffix6) : String :=
  String.mk [digitChar s.d1, digitChar s.d2, digitChar s.d3,
             digitChar s.d4, digitChar s.d5, digitChar s.d6]

/-! ## User (`models.py:8-100`) -/

/-- Row of the `users` table (`models.py:8`); demographic fields omitted
(no claim mentions them). `is_staff_flag` is Django's built-in
`is_staff` boolean, distinct from the `role` string. -/
structure GymUser where
  id : Nat
  role : Role
  is_superuser : Bool
  is_staff_flag : Bool
  kiosk_pin : Option String
deriving DecidableEq, Repr

/-- Role-sync part of `User.save` (`models.py:41-49`): superusers are
forced to role `admin`; Django-staff members are promoted to role
`staff`. (The age derivation acts only on the omitted demographic
columns.) -/
def GymUser.save (u : GymUser) : GymUser :=
  let u := if u.is_superuser && !(u.role = .admin) then { u with role := .admin } else u
  if u.is_staff_flag && u.role = .member && !u.is_superuser then { u with role := .staff } else u

/-- `User.is_admin` (`models.py:70`). -/
def GymUser.is_admin (u : GymUser) : Bool :=
  u.role = .admin || u.is_superuser

/-- `User.is_staff_or_admin` (`models.py:74`). -/
def GymUser.is_staff_or_admin (u : GymUser) : Bool :=
  u.role = .admin || u.role = .staff || u.is_superuser || u.is_staff_flag

/-- All PINs currently stored in the `users` table
(`User.objects.filter(kiosk_pin=pin).exists()` ranges over these). -/
def pinsOf (users : List GymUser) : List String :=
  users.filterMap (·.kiosk_pin)

/-- `User.generate_kiosk_pin` (`models.py:78-86`): draw 6 digits, retry
until no user holds that PIN, then set `self.kiosk_pin` and save.
There is no role check in the method.  Returns the updated `users`
table together with the issued PIN, or `none` when every drawn
candidate collides (the source then loops forever). -/
def GymUser.generate_kiosk_pin (cands : List Suffix6) (users : List GymUser)
    (u : GymUser) : Option (List GymUser × String) :=
  match cands.find? (fun c => !(users.any (fun v => v.kiosk_pin = some c.render))) with
  | none => none
  | some c =>
      some (users.map (fun v =>
        if v.id = u.id then GymUser.save { u with kiosk_pin := some c.render } else v),
        c.render)

/-! ## Membership plan (`models.py:102-146`) -/

/-- Row of the `membership_plans` table (`models.py:102`). -/
structure MembershipPlan where
  id : Nat
  duration_days : Int
  price : Int
  is_active : Bool
  is_archived : Bool
deriving DecidableEq, Repr

/-! ## User membership (`models.py:196-243`)

The `plan` foreign key is embedded as the referenced row itself
(`self.plan` dereferences it in the source). -/

/-- Row of the `user_memberships` table (`models.py:196`). `end_date`
is `none` only transiently, before the first `save` fills it in. -/
structure UserMembership where
  id : Nat
  user_id : Nat
  plan : MembershipPlan
  start_date : Int
  end_date : Option Int
  status : MStatus
deriving DecidableEq, Repr

/-- `UserMembership.save` (`models.py:221-230`): fill a missing
`end_date` as `start_date + plan.duration_days`, then force status
`expired` whenever `end_date < date.today()` — regardless of the status
being stored. -/
def UserMembership.save (today : Int) (m : UserMembership) : UserMembership :=
  let e : Int :=
    match m.end_date with
    | none => m.start_date + m.plan.duration_days
    | some e => e
  { m with
    end_date := some e
    status := if e < today then MStatus.expired else m.status }

/-- `UserMembership.is_active` (`models.py:235-237`):
`self.status == 'active' and self.end_date >= date.today()`. -/
def UserMembership.is_active (today : Int) (m : UserMembership) : Bool :=
  m.status = MStatus.active &&
    (match m.end_date with
     | some e => today ≤ e
     | none => false)

/-! ## Member payments (`models.py:246-334`) -/

/-- Row of the `payments` table (`models.py:246`). The `user` and
`membership` foreign keys are kept as ids (the rows live in the `DB`
record). -/
structure Payment where
  id : Nat
  user_id : Nat
  membership_id : Nat
  amount : Int
  payment_date : Int
  reference_no : Option String
  status : PayStatus
  approved_by : Option Nat
  approved_at : Option Int
  rejection_reason : Option String
deriving DecidableEq, Repr

/-- Reference string `f"{pre}-{date_str}-{random_part}"` as built by
both generators (`models.py:304` and `models.py:387`). -/
def mkReference (pre dateStr : String) (s : Suffix6) : String :=
  pre ++ "-" ++ dateStr ++ "-" ++ s.render

/-- Common body of `Payment.generate_reference_number` (`models.py:296`,
prefix `"PAY"`) and `WalkInPayment.generate_reference_number`
(`models.py:379`, prefix `"WLK"`): draw a fresh 6-digit suffix until
the resulting reference does not already exist in the corresponding
table. -/
def generate_reference_number (pre dateStr : String) (cands : List Suffix6)
    (existing : List String) : Option String :=
  (cands.find? (fun c => !(decide (mkReference pre dateStr c ∈ existing)))).map
    (mkReference pre dateStr)

/-- All reference numbers stored in a member-payment table. -/
def refsOf (ps : List Payment) : List String :=
  ps.filterMap (·.reference_no)

/-- `Payment.save` (`models.py:289-293`): generate a reference number
only when none is set yet; an already-stored reference is left
untouched. -/
def Payment.save (dateStr : String) (cands : List Suffix6)
    (existing : List String) (p : Payment) : Option Payment :=
  match p.reference_no with
  | some _ => some p
  | none =>
      (generate_reference_number "PAY" dateStr cands existing).map
        (fun r => { p with reference_no := some r })

/-- In-row part of `Payment.confirm` (`models.py:308-313`): set status
`confirmed` and record approver and approval time. (The membership
cascade of `models.py:316-318` is performed by the caller on the `DB`.) -/
def Payment.confirmRow (actorId : Nat) (now : Int) (p : Payment) : Payment :=
  { p with status := .confirmed, approved_by := some actorId, approved_at := some now }

/-- In-row part of `Payment.reject` (`models.py:320-326`): set status
`rejected`, record approver, approval time and the rejection reason. -/
def Payment.rejectRow (actorId : Nat) (now : Int) (reason : String) (p : Payment) : Payment :=
  { p with status := .rejected, approved_by := some actorId, approved_at := some now,
           rejection_reason := some reason }

/-! ## Walk-in payments (`models.py:337-393`) -/

/-- Row of the `walk_in_payments` table (`models.py:337`); customer
fields omitted (no claim mentions them). -/
structure WalkInPayment where
  id : Nat
  amount : Int
  payment_date : Int
  reference_no : Option String
deriving DecidableEq, Repr

/-- All reference numbers stored in the walk-in payment table. -/
def walkinRefsOf (ps : List WalkInPayment) : List String :=
  ps.filterMap (·.reference_no)

/-- `WalkInPayment.save` (`models.py:372-376`): like `Payment.save` but
with the `"WLK"` prefix and uniqueness checked against the walk-in
table. -/
def WalkInPayment.save (dateStr : String) (cands : List Suffix6)
    (existing : List String) (p : WalkInPayment) : Option WalkInPayment :=
  match p.reference_no with
  | some _ => some p
  | none =>
      (generate_reference_number "WLK" dateStr cands existing).map
        (fun r => { p with reference_no := some r })

/-! ## Attendance (`models.py:624-671`) -/

/-- Row of the `attendance` table (`models.py:624`). -/
structure Attendance where
  id : Nat
  user_id : Nat
  check_in : Int
  check_out : Option Int
  duration_minutes : Option Int
deriving DecidableEq, Repr

/-- `Attendance.save` (`models.py:650-655`): when a check-out time is
set, `duration_minutes = int(delta.total_seconds() / 60)` — Python
`int()` truncates toward zero, i.e. `Int.tdiv`. -/
def Attendance.save (a : Attendance) : Attendance :=
  match a.check_out with
  | some out => { a with duration_minutes := some (Int.tdiv (out - a.check_in) 60) }
  | none => a

/-! ## Analytics (`models.py:396-455`) -/

/-- Row of the `analytics` table (`models.py:396`); the `date` column
carries a UNIQUE constraint. -/
structure AnalyticsRow where
  date : Int
  total_members : Nat
  total_passes : Nat
  total_sales : Int
deriving DecidableEq, Repr

/-- `payment_date__date`: the calendar date of a timestamp (seconds
since epoch, floored to whole days). -/
def dateOf (t : Int) : Int := Int.fdiv t 86400

/-! ## The database -/

/-- The relational state the claims range over: one list per table. -/
structure DB where
  users : List GymUser
  memberships : List UserMembership
  payments : List Payment
  walkins : List WalkInPayment
  attendance : List Attendance
  analytics : List AnalyticsRow
deriving DecidableEq, Repr

/-! ## Request handlers (`views.py`)

Each handler is modelled as a function of the validated inputs, the
ambient clock (`today`/`now`/`dateStr`), the pre-drawn random digit
batches, and the current `DB`.  `Except.error` = the handler bails out
(error message / 404 / redirect) without modifying any table.  Audit-log
appends are not modelled (no claim mentions them). -/

/-- Failure modes of `subscribe_plan` (`views.py:548-628`). -/
inductive SubscribeErr where
  | onlyMembers
  | planNotFound
  | alreadyActive
  | refGenDiverges
deriving DecidableEq, Repr

/-- `subscribe_plan` (`views.py:548-628`), POST branch.  Refuses
non-member requesters and inactive plans; refuses when the requester
already has a membership with stored status `active` (the existence
check at `views.py:556-563` looks at the stored status only); otherwise
creates one `pending` membership starting today (its `end_date` filled
in by `UserMembership.save`) and one `pending` payment for
`plan.price` with a freshly generated reference number.
`newMid`/`newPid` are the fresh primary keys the database would hand
out. -/
def subscribe_plan (requser : GymUser) (plan : MembershipPlan)
    (today now : Int) (dateStr : String) (refCands : List Suffix6)
    (newMid newPid : Nat) (db : DB) : Except SubscribeErr DB :=
  if !(requser.role = .member) then .error .onlyMembers
  else if !plan.is_active then .error .planNotFound
  else if db.memberships.any (fun m => m.user_id = requser.id && m.status = MStatus.active) then
    .error .alreadyActive
  else
    let m := UserMembership.save today
      { id := newMid, user_id := requser.id, plan := plan,
        start_date := today, end_date := none, status := .pending }
    let p0 : Payment :=
      { id := newPid, user_id := requser.id, membership_id := newMid,
        amount := plan.price, payment_date := now, reference_no := none,
        status := .pending, approved_by := none, approved_at := none,
        rejection_reason := none }
    match Payment.save dateStr refCands (refsOf db.payments) p0 with
    | none => .error .refGenDiverges
    | some p =>
        .ok { db with memberships := db.memberships ++ [m],
                      payments := db.payments ++ [p] }

/-- Failure modes of `confirm_payment` / `reject_payment`
(`views.py:1796-1874`). -/
inductive PaymentViewErr where
  | accessDenied
  | notFound
  | refGenDiverges
  | pinGenDiverges
deriving DecidableEq, Repr

/-- `confirm_payment` (`views.py:1796-1830`), POST branch.  Looks up the
payment by id **with `status='pending'`** (`get_object_or_404` at
`views.py:1803`; an already-confirmed or rejected payment is a 404),
runs `payment.confirm(request.user)` — which saves the payment and then
saves its membership with status `active`, subject to the
expired-override in `UserMembership.save` — and issues a kiosk PIN when
`payment.user` has none. -/
def confirm_payment (actor : GymUser) (pid : Nat) (today now : Int)
    (dateStr : String) (refCands pinCands : List Suffix6) (db : DB) :
    Except PaymentViewErr DB :=
  if !actor.is_staff_or_admin then .error .accessDenied
  else
    match db.payments.find? (fun p => p.id = pid && p.status = PayStatus.pending) with
    | none => .error .notFound
    | some p =>
        match Payment.save dateStr refCands (refsOf db.payments) (Payment.confirmRow actor.id now p) with
        | none => .error .refGenDiverges
        | some p1 =>
            let payments1 := db.payments.map (fun q => if q.id = p.id then p1 else q)
            let memberships1 := db.memberships.map (fun m =>
              if m.id = p.membership_id then UserMembership.save today { m with status := .active }
              else m)
            match db.users.find? (fun u => u.id = p.user_id) with
            | none => .ok { db with payments := payments1, memberships := memberships1 }
            | some u =>
                if u.kiosk_pin.isNone then
                  match GymUser.generate_kiosk_pin pinCands db.users u with
                  | none => .error .pinGenDiverges
                  | some (users1, _) =>
                      .ok { db with payments := payments1, memberships := memberships1,
                                    users := users1 }
                else .ok { db with payments := payments1, memberships := memberships1 }

/-- `reject_payment` (`views.py:1840-1874`), POST branch.  Same pending
lookup; `payment.reject(request.user, reason)` records the reason and
saves the membership with status `cancelled`, again subject to the
expired-override in `UserMembership.save`. -/
def reject_payment (actor : GymUser) (pid : Nat) (reason : String)
    (today now : Int) (dateStr : String) (refCands : List Suffix6) (db : DB) :
    Except PaymentViewErr DB :=
  if !actor.is_staff_or_admin then .error .accessDenied
  else
    match db.payments.find? (fun p => p.id = pid && p.status = PayStatus.pending) with
    | none => .error .notFound
    | some p =>
        match Payment.save dateStr refCands (refsOf db.payments)
            (Payment.rejectRow actor.id now reason p) with
        | none => .error .refGenDiverges
        | some p1 =>
            let payments1 := db.payments.map (fun q => if q.id = p.id then p1 else q)
            let memberships1 := db.memberships.map (fun m =>
              if m.id = p.membership_id then UserMembership.save today { m with status := .cancelled }
              else m)
            .ok { db with payments := payments1, memberships := memberships1 }

/-- Failure modes of `cancel_membership` (`views.py:1018-1061`). -/
inductive CancelErr where
  | notFound
  | notYourMembership
  | cannotCancel
  | attributeErrorNoCancel
deriving DecidableEq, Repr

/-- `cancel_membership` (`views.py:1018-1061`), POST branch.  Guards:
only the owner or an admin may cancel, and only an `active` membership.
The body then calls `membership.cancel(user=request.user, reason=reason)`
(`views.py:1035`) — but `UserMembership` (`models.py:196-243`) defines
no `cancel` method and has no columns for a cancelling actor or reason,
so the call raises `AttributeError` before any state change. -/
def cancel_membership (requser : GymUser) (mid : Nat) (_reason : String)
    (db : DB) : Except CancelErr DB :=
  match db.memberships.find? (fun m => m.id = mid) with
  | none => .error .notFound
  | some m =>
      if !(requser.id = m.user_id) && !requser.is_admin then .error .notYourMembership
      else if !(m.status = MStatus.active) then .error .cannotCancel
      else .error .attributeErrorNoCancel

/-- Failure modes of `kiosk_login` (`views.py:1322-1421`). -/
inductive KioskErr where
  | invalidFormat
  | invalidPin
  | noActiveMembership
deriving DecidableEq, Repr

/-- Outcome of a successful kiosk submission: a check-in, or a
check-out reporting the computed session duration. -/
inductive KioskResult where
  | checkin
  | checkout (duration : Option Int)
deriving DecidableEq, Repr

/-- PIN format gate of `kiosk_login` (`views.py:1327`):
`len(kiosk_pin) == 6 and kiosk_pin.isdigit()` (the emptiness test is
subsumed by the length test). -/
def validPinFormat (s : String) : Bool :=
  s.length = 6 && s.toList.all (·.isDigit)

/-- Active-membership gate of `kiosk_login` (`views.py:1353-1357`):
a membership of this user with stored status `active` and
`end_date >= date.today()`. -/
def hasActiveNonExpired (today : Int) (uid : Nat) (ms : List UserMembership) : Bool :=
  ms.any (fun m =>
    m.user_id = uid && m.status = MStatus.active &&
      (match m.end_date with
       | some e => today ≤ e
       | none => false))

/-- `kiosk_login` (`views.py:1322-1421`), POST branch.  Format check,
member lookup by PIN, active-membership gate (before the toggle!), then
the two-state toggle: an open attendance record is closed
(`check_out = now`, duration derived in `Attendance.save`), otherwise a
fresh record with null check-out is created (fresh key `newAid`). -/
def kiosk_login (pin : String) (today now : Int) (newAid : Nat) (db : DB) :
    Except KioskErr (DB × KioskResult) :=
  if !validPinFormat pin then .error .invalidFormat
  else
    match db.users.find? (fun u => u.kiosk_pin = some pin && u.role = Role.member) with
    | none => .error .invalidPin
    | some u =>
        if !hasActiveNonExpired today u.id db.memberships then .error .noActiveMembership
        else
          match db.attendance.find? (fun a => a.user_id = u.id && a.check_out.isNone) with
          | some a =>
              let a1 := Attendance.save { a with check_out := some now }
              .ok ({ db with attendance :=
                       db.attendance.map (fun b => if b.id = a.id then a1 else b) },
                   .checkout a1.duration_minutes)
          | none =>
              .ok ({ db with attendance :=
                       db.attendance ++
                         [{ id := newAid, user_id := u.id, check_in := now,
                            check_out := none, duration_minutes := none }] },
                   .checkin)

/-! ## Analytics recompute (`models.py:416-455`) -/

/-- `update_or_create(date=target_date, defaults=...)`: overwrite the
counters of the existing row for that date, or append a new row.  The
`date` column's UNIQUE constraint means at most one row can match. -/
def upsertAnalytics (d : Int) (tm tp : Nat) (ts : Int)
    (rows : List AnalyticsRow) : List AnalyticsRow :=
  if rows.any (fun r => r.date = d) then
    rows.map (fun r =>
      if r.date = d then { r with total_members := tm, total_passes := tp, total_sales := ts }
      else r)
  else rows ++ [{ date := d, total_members := tm, total_passes := tp, total_sales := ts }]

/-- Counter: memberships with stored status `active` whose date range
contains the target date (`models.py:423-427`). -/
def countActiveMembers (d : Int) (ms : List UserMembership) : Nat :=
  ms.countP (fun m =>
    m.status = MStatus.active && m.start_date ≤ d &&
      (match m.end_date with
       | some e => d ≤ e
       | none => false))

/-- Counter: walk-in passes sold on the target date (`models.py:430-432`). -/
def countPassesSold (d : Int) (ws : List WalkInPayment) : Nat :=
  ws.countP (fun w => dateOf w.payment_date = d)

/-- Member revenue on the target date (`models.py:435-437`); note the
source sums every payment of that date regardless of its status. -/
def memberSales (d : Int) (ps : List Payment) : Int :=
  ((ps.filter (fun p => dateOf p.payment_date = d)).map (·.amount)).sum

/-- Walk-in revenue on the target date (`models.py:439-441`). -/
def walkinSales (d : Int) (ws : List WalkInPayment) : Int :=
  ((ws.filter (fun w => dateOf w.payment_date = d)).map (·.amount)).sum

/-- `Analytics.generate_daily_report` (`models.py:416-455`): compute the
three counters from the current tables and upsert the single snapshot
row keyed by the target date. -/
def generate_daily_report (d : Int) (db : DB) : DB :=
  let tm := countActiveMembers d db.memberships
  let tp := countPassesSold d db.walkins
  let ts := memberSales d db.payments + walkinSales d db.walkins
  { db with analytics := upsertAnalytics d tm tp ts db.analytics }

/-! ## Read paths used by the member dashboard (`views.py:488-514`) -/

/-- `member_dashboard`'s `current_membership` query (`views.py:493-496`):
the first membership of the user with **stored** status `active`; no
date filter, no save — the stored status is what the page reports. -/
def memberDashboardCurrent (uid : Nat) (db : DB) : Option UserMembership :=
  db.memberships.find? (fun m => m.user_id = uid && m.status = MStatus.active)

/-! ## Small helper lemmas -/

deriving instance DecidableEq for Except


/-- Every character produced by `digitChar` is a decimal digit. -/
theorem digitChar_isDigit : ∀ d : Fin 10, (digitChar d).isDigit = true := by
  decide

/-- A rendered 6-digit draw has length 6. -/
theorem Suffix6.render_length (s : Suffix6) : s.render.length = 6 := rfl

/-- Every character of a rendered 6-digit draw is a decimal digit. -/
theorem Suffix6.render_digits (s : Suffix6) : ∀ c ∈ s.render.toList, c.isDigit = true := by
  intro c hc
  simp only [Suffix6.render, String.toList, List.mem_cons, List.not_mem_nil, or_false] at hc
  rcases hc with rfl | rfl | rfl | rfl | rfl | rfl <;> exact digitChar_isDigit _

/-! ## Concrete fixtures used by counterexamples and witnesses -/

/-- A 30-day, 1500-peso active plan (the spec §8 example plan). -/
def plan30 : MembershipPlan :=
  { id := 1, duration_days := 30, price := 1500, is_active := true, is_archived := false }

/-- A member with no kiosk PIN. -/
def member7 : GymUser :=
  { id := 7, role := .member, is_superuser := false, is_staff_flag := false, kiosk_pin := none }

/-- A staff account (role `staff`, Django staff flag set). -/
def staff8 : GymUser :=
  { id := 8, role := .staff, is_superuser := false, is_staff_flag := true, kiosk_pin := none }

/-- A membership of `member7` on `plan30` that started on day 0 whose
stored status is still `active` although its `end_date` (day 3) lies
before "today" (day 5 in the fixtures below). -/
def mStale : UserMembership :=
  { id := 1, user_id := 7, plan := plan30, start_date := 0, end_date := some 3,
    status := .active }

/-- Database holding just `member7` and the stale-but-stored-`active`
membership `mStale`. -/
def dbStale : DB :=
  { users := [member7], memberships := [mStale], payments := [], walkins := [],
    attendance := [], analytics := [] }

/-! ## C2 — expiry on read vs. expiry on save -/

/-- C2 counterexample: with today = day 5, the membership `mStale` has
`end_date` (day 3) strictly before today, yet the member dashboard's
normal read path (`views.py:493-496` filters on the **stored** status
and performs no save) still reports it with status `active`, not
`expired`.  Reads never invoke `UserMembership.save`, so the stored
status is what every read reports. -/
theorem C2_counterexample :
    memberDashboardCurrent 7 dbStale = some mStale ∧
      mStale.end_date = some 3 ∧ (3 : Int) < 5 ∧ mStale.status ≠ MStatus.expired := by
  decide

/-- C2 (amended): a subscription whose `end_date` lies strictly before
today is forced to status `expired` whenever it is **saved**
(`UserMembership.save`, `models.py:227-228`), regardless of the stored
status, and `is_active` reports `false` for it; a plain read, however,
returns the stored status unchanged. -/
theorem C2_expired_on_save (m : UserMembership) (today e : Int)
    (he : m.end_date = some e) (hlt : e < today) :
    (UserMembership.save today m).status = MStatus.expired ∧
      UserMembership.is_active today m = false := by
  constructor
  · simp [UserMembership.save, he, hlt]
  · simp [UserMembership.is_active, he]
    intro _
    omega

/-- C2 witness: the amended statement evaluated on the concrete stale
membership `mStale` at today = 5. -/
theorem C2_witness :
    (UserMembership.save 5 mStale).status = MStatus.expired ∧
      UserMembership.is_active 5 mStale = false :=
  C2_expired_on_save mStale 5 3 rfl (by norm_num)

/-! ## C3 — membership cancellation -/

/-- A current `active` membership of `member7` (end day 40, today ≤ 40). -/
def mCurrent : UserMembership :=
  { id := 2, user_id := 7, plan := plan30, start_date := 10, end_date := some 40,
    status := .active }

/-- Database for the cancellation scenario. -/
def dbCancel : DB :=
  { users := [member7], memberships := [mCurrent], payments := [], walkins := [],
    attendance := [], analytics := [] }

/-- C3: the code crashes where the claim expects a successful
cancellation.  On the failing input — the owner POSTs a cancellation of
their `active` membership — the guards pass, but the body then calls
`membership.cancel(user=..., reason=...)` (`views.py:1035`) and
`UserMembership` defines no `cancel` method (`models.py:196-243`) and
no columns for a cancelling actor or reason, so the request dies with
`AttributeError` and no membership ever reaches status `cancelled`. -/
theorem C3_cancel_crashes :
    mCurrent.status = MStatus.active ∧ mCurrent.user_id = member7.id ∧
      cancel_membership member7 2 "moving away" dbCancel =
        .error .attributeErrorNoCancel := by
  decide

/-- What a successful run of the collision-avoiding generator yields:
a reference built from one of the drawn 6-digit suffixes in the
documented format, not present in the existing table. -/
theorem generate_reference_number_spec (pre dateStr : String)
    (cands : List Suffix6) (existing : List String) (r : String)
    (h : generate_reference_number pre dateStr cands existing = some r) :
    (∃ s ∈ cands, r = pre ++ "-" ++ dateStr ++ "-" ++ s.render ∧
        r.length = pre.length + dateStr.length + 8) ∧
      r ∉ existing := by
  unfold generate_reference_number at h
  cases hf : cands.find? (fun c => !(decide (mkReference pre dateStr c ∈ existing))) with
  | none => rw [hf] at h; cases h
  | some s =>
      rw [hf] at h
      have hr : mkReference pre dateStr s = r := by
        simpa using h
      have hmem := List.mem_of_find?_eq_some hf
      have hfresh := List.find?_some hf
      simp only [Bool.not_eq_true', decide_eq_false_iff_not] at hfresh
      subst hr
      refine ⟨⟨s, hmem, rfl, ?_⟩, hfresh⟩
      simp [mkReference, String.length_append, Suffix6.render_length]
      have hdash : "-".length = 1 := rfl
      omega

/-! ## C6 — payment reference numbers -/

/-- C6: generated payment reference numbers have the documented shape
`<PREFIX>-<YYYYMMDD>-<6 digits>` with prefix `PAY` for member payments
and `WLK` for walk-in payments, are unused in the corresponding payment
table at the moment of generation, and are never changed once stored:
`Payment.save` / `WalkInPayment.save` regenerate only a missing
reference, and the two payment mutations (`confirm`, `reject`) leave
the reference untouched. -/
theorem C6_reference_numbers :
    (∀ dateStr cands (ps : List Payment) r,
        generate_reference_number "PAY" dateStr cands (refsOf ps) = some r →
          (∃ s ∈ cands, r = "PAY" ++ "-" ++ dateStr ++ "-" ++ s.render ∧
              s.render.length = 6 ∧ ∀ c ∈ s.render.toList, c.isDigit = true) ∧
            r ∉ refsOf ps) ∧
    (∀ dateStr cands (ws : List WalkInPayment) r,
        generate_reference_number "WLK" dateStr cands (walkinRefsOf ws) = some r →
          (∃ s ∈ cands, r = "WLK" ++ "-" ++ dateStr ++ "-" ++ s.render ∧
              s.render.length = 6 ∧ ∀ c ∈ s.render.toList, c.isDigit = true) ∧
            r ∉ walkinRefsOf ws) ∧
    (∀ dateStr cands existing (p : Payment), p.reference_no.isSome →
        Payment.save dateStr cands existing p = some p) ∧
    (∀ dateStr cands existing (w : WalkInPayment), w.reference_no.isSome →
        WalkInPayment.save dateStr cands existing w = some w) ∧
    (∀ actorId now p, (Payment.confirmRow actorId now p).reference_no = p.reference_no) ∧
    (∀ actorId now reason p,
        (Payment.rejectRow actorId now reason p).reference_no = p.reference_no) := by
  refine ⟨?_, ?_, ?_, ?_, ?_, ?_⟩
  · intro dateStr cands ps r h
    obtain ⟨⟨s, hs, hr, _⟩, hfresh⟩ := generate_reference_number_spec _ _ _ _ _ h
    exact ⟨⟨s, hs, by simpa [mkReference] using hr,
      Suffix6.render_length s, Suffix6.render_digits s⟩, hfresh⟩
  · intro dateStr cands ws r h
    obtain ⟨⟨s, hs, hr, _⟩, hfresh⟩ := generate_reference_number_spec _ _ _ _ _ h
    exact ⟨⟨s, hs, by simpa [mkReference] using hr,
      Suffix6.render_length s, Suffix6.render_digits s⟩, hfresh⟩
  · intro dateStr cands existing p h
    rcases hp : p.reference_no with _ | r
    · rw [hp] at h; cases h
    · simp [Payment.save, hp]
  · intro dateStr cands existing w h
    rcases hw : w.reference_no with _ | r
    · rw [hw] at h; cases h
    · simp [WalkInPayment.save, hw]
  · intro actorId now p; rfl
  · intro actorId now reason p; rfl

/-- The suffix ⟨1,2,3,4,5,6⟩, rendering as `"123456"`. -/
def s123456 : Suffix6 := ⟨1, 2, 3, 4, 5, 6⟩

/-- A payment already carrying a stored reference number. -/
def payRef123 : Payment :=
  { id := 1, user_id := 7, membership_id := 1, amount := 1500, payment_date := 0,
    reference_no := some "PAY-20261012-123456", status := .pending,
    approved_by := none, approved_at := none, rejection_reason := none }

/-- C6 witness: the reference-number theorem applied to a concrete
generation over an empty payment table and to a concrete stored
payment. -/
theorem C6_witness :
    ((∃ s ∈ [s123456], "PAY-20261012-123456" = "PAY" ++ "-" ++ "20261012" ++ "-" ++ s.render ∧
        s.render.length = 6 ∧ ∀ c ∈ s.render.toList, c.isDigit = true) ∧
      "PAY-20261012-123456" ∉ refsOf []) ∧
    Payment.save "20261012" [] [] payRef123 = some payRef123 :=
  ⟨C6_reference_numbers.1 "20261012" [s123456] [] "PAY-20261012-123456" rfl,
    C6_reference_numbers.2.2.1 "20261012" [] [] payRef123 rfl⟩

/-! ## C10 — kiosk PINs -/

/-- The suffix ⟨1,1,1,1,1,1⟩, rendering as `"111111"`. -/
def s111111 : Suffix6 := ⟨1, 1, 1, 1, 1, 1⟩

/-- The role-sync in `User.save` never touches the PIN column. -/
theorem GymUser.save_kiosk_pin (u : GymUser) :
    (GymUser.save u).kiosk_pin = u.kiosk_pin := by
  unfold GymUser.save
  dsimp only
  split <;> split <;> rfl

/-- C10 counterexample: `User.generate_kiosk_pin` (`models.py:78-86`)
has no role guard, so invoking it on a staff account — exactly what
`confirm_payment` (`views.py:1810`) does to `payment.user` whatever
that user's current role — succeeds and stores a PIN on a non-member. -/
theorem C10_counterexample :
    GymUser.generate_kiosk_pin [s111111] [staff8] staff8 =
      some ([{ staff8 with kiosk_pin := some "111111" }], "111111") ∧
      staff8.role = Role.staff := by
  decide

/-- A PIN appearing after a keyed single-row update was either already
present or is the PIN of the written row. -/
theorem mem_pinsOf_map_update (uid : Nat) (w : GymUser) (t : List GymUser)
    (q : String)
    (hq : q ∈ pinsOf (t.map (fun v => if v.id = uid then w else v))) :
    q ∈ pinsOf t ∨ w.kiosk_pin = some q := by
  simp only [pinsOf, List.mem_filterMap, List.mem_map] at hq ⊢
  obtain ⟨x, ⟨v, hv, hx⟩, hpin⟩ := hq
  by_cases h : v.id = uid
  · right
    rw [← hx] at hpin
    simpa [h] using hpin
  · left
    refine ⟨v, hv, ?_⟩
    rw [← hx] at hpin
    simpa [h] using hpin

/-- Writing one row (keyed by id, over a table with distinct ids) whose
PIN is fresh preserves pairwise distinctness of all stored PINs. -/
theorem pinsOf_update_nodup (uid : Nat) (w : GymUser) (s : String)
    (hw : w.kiosk_pin = some s) :
    ∀ users : List GymUser, (users.map (·.id)).Nodup → (pinsOf users).Nodup →
      (∀ v ∈ users, ¬ v.kiosk_pin = some s) →
      (pinsOf (users.map (fun v => if v.id = uid then w else v))).Nodup := by
  intro users
  induction users with
  | nil => intro _ _ _; simp [pinsOf]
  | cons v t ih =>
      intro hids hpins hfresh
      simp only [List.map_cons, List.nodup_cons] at hids
      obtain ⟨hvid, hidt⟩ := hids
      have hfresh_t : ∀ x ∈ t, ¬ x.kiosk_pin = some s := fun x hx =>
        hfresh x (List.mem_cons_of_mem _ hx)
      have hpins_t : (pinsOf t).Nodup := by
        rcases hvp : v.kiosk_pin with _ | p <;>
          simp_all [pinsOf, List.filterMap_cons]
      rw [List.map_cons]
      by_cases hcase : v.id = uid
      · -- the head row is the one being written; distinct ids leave the tail unchanged
        have ht : t.map (fun x => if x.id = uid then w else x) = t := by
          have hno : ∀ x ∈ t, (if x.id = uid then w else x) = x := by
            intro x hx
            have hxne : ¬ x.id = uid := by
              intro hxu
              exact hvid (by rw [hcase, ← hxu]; exact List.mem_map_of_mem _ hx)
            simp [hxne]
          simp [List.map_congr_left hno]
        have hs_t : s ∉ pinsOf t := by
          intro hmem
          simp only [pinsOf, List.mem_filterMap] at hmem
          obtain ⟨x, hx, hxs⟩ := hmem
          exact hfresh_t x hx hxs
        rw [if_pos hcase, ht]
        simp only [pinsOf, List.filterMap_cons, hw]
        exact List.nodup_cons.mpr ⟨hs_t, hpins_t⟩
      · -- the head row is untouched
        have tail := ih hidt hpins_t hfresh_t
        rw [if_neg hcase]
        rcases hvp : v.kiosk_pin with _ | p
        · simpa [pinsOf, List.filterMap_cons, hvp] using tail
        · have hp_new : p ∉ pinsOf (t.map (fun x => if x.id = uid then w else x)) := by
            intro hmem
            rcases mem_pinsOf_map_update uid w t p hmem with hold | hws
            · have hnotp : p ∉ pinsOf t := by
                simp only [pinsOf, List.filterMap_cons, hvp, List.nodup_cons] at hpins
                exact hpins.1
              exact hnotp hold
            · have hps : p = s := by rw [hw] at hws; injection hws with h; exact h.symm
              exact hfresh v (List.mem_cons_self _ _) (by rw [hvp, hps])
          simp only [pinsOf, List.filterMap_cons, hvp]
          exact List.nodup_cons.mpr ⟨hp_new, tail⟩

/-- C10 (amended): whenever the PIN generator succeeds it issues a
6-digit PIN that no user previously held, and — over a table with
distinct primary keys and pairwise-distinct stored PINs — global PIN
uniqueness is preserved.  The members-only half of the original claim
is refuted by `C10_counterexample`: the issuing method itself checks no
role, so a non-member can be handed a PIN. -/
theorem C10_pin_uniqueness (cands : List Suffix6) (users users' : List GymUser)
    (u : GymUser) (pin : String)
    (hids : (users.map (·.id)).Nodup)
    (hpins : (pinsOf users).Nodup)
    (h : GymUser.generate_kiosk_pin cands users u = some (users', pin)) :
    pin.length = 6 ∧ (∀ c ∈ pin.toList, c.isDigit = true) ∧
      (∀ v ∈ users, ¬ v.kiosk_pin = some pin) ∧ (pinsOf users').Nodup := by
  unfold GymUser.generate_kiosk_pin at h
  cases hf : cands.find? (fun c => !(users.any (fun v => v.kiosk_pin = some c.render))) with
  | none => rw [hf] at h; cases h
  | some c =>
      rw [hf] at h
      have husers : users.map (fun v =>
          if v.id = u.id then GymUser.save { u with kiosk_pin := some c.render } else v) =
            users' := by
        injection h with h1
        exact congrArg Prod.fst h1
      have hpin : c.render = pin := by
        injection h with h1
        exact congrArg Prod.snd h1
      have hfresh := List.find?_some hf
      simp only [Bool.not_eq_true', List.any_eq_false, decide_eq_true_eq] at hfresh
      subst hpin
      refine ⟨Suffix6.render_length c, Suffix6.render_digits c, hfresh, ?_⟩
      rw [← husers]
      exact pinsOf_update_nodup u.id _ c.render
        (GymUser.save_kiosk_pin _) users hids hpins hfresh

/-- C10 witness: the uniqueness statement evaluated on a one-member
table receiving the PIN `"111111"`. -/
theorem C10_witness :
    ("111111" : String).length = 6 ∧ (∀ c ∈ ("111111" : String).toList, c.isDigit = true) ∧
      (∀ v ∈ [member7], ¬ v.kiosk_pin = some "111111") ∧
      (pinsOf [{ member7 with kiosk_pin := some "111111" }]).Nodup :=
  C10_pin_uniqueness [s111111] [member7] [{ member7 with kiosk_pin := some "111111" }]
    member7 "111111" (by decide) (by decide) (by decide)

/-! ## C7 / C8 — kiosk check-in and check-out -/

/-- C7: for a well-formed PIN that resolves to a member with no open
attendance record, the kiosk gate refuses the submission with a
membership error — creating nothing — exactly when the user has no
subscription with stored status `active` and `end_date ≥ today`; when
such a subscription exists it creates one new attendance record with
null check-out. -/
theorem C7_kiosk_checkin_gate (pin : String) (today now : Int) (newAid : Nat)
    (db : DB) (u : GymUser)
    (hfmt : validPinFormat pin = true)
    (huser : db.users.find? (fun v => v.kiosk_pin = some pin && v.role = Role.member) = some u)
    (hopen : db.attendance.find? (fun a => a.user_id = u.id && a.check_out.isNone) = none) :
    (hasActiveNonExpired today u.id db.memberships = false →
        kiosk_login pin today now newAid db = .error .noActiveMembership) ∧
    (hasActiveNonExpired today u.id db.memberships = true →
        kiosk_login pin today now newAid db =
          .ok ({ db with
                   attendance := db.attendance ++
                     [{ id := newAid, user_id := u.id, check_in := now,
                        check_out := none, duration_minutes := none }] },
               .checkin)) := by
  constructor <;> intro hact <;> simp [kiosk_login, hfmt, huser, hact, hopen]

/-- A member holding PIN `"222222"`. -/
def member9 : GymUser :=
  { id := 9, role := .member, is_superuser := false, is_staff_flag := false,
    kiosk_pin := some "222222" }

/-- A current `active` membership of `member9` (end day 40). -/
def mActive9 : UserMembership :=
  { id := 3, user_id := 9, plan := plan30, start_date := 10, end_date := some 40,
    status := .active }

/-- Database for the kiosk check-in witness: `member9`, an active
membership, an empty attendance table. -/
def dbKiosk : DB :=
  { users := [member9], memberships := [mActive9], payments := [], walkins := [],
    attendance := [], analytics := [] }

/-- C7 witness: the kiosk gate evaluated at today = 20 on `dbKiosk`. -/
theorem C7_witness :
    (hasActiveNonExpired 20 member9.id dbKiosk.memberships = false →
        kiosk_login "222222" 20 1000 50 dbKiosk = .error .noActiveMembership) ∧
    (hasActiveNonExpired 20 member9.id dbKiosk.memberships = true →
        kiosk_login "222222" 20 1000 50 dbKiosk =
          .ok ({ dbKiosk with
                   attendance := dbKiosk.attendance ++
                     [{ id := 50, user_id := member9.id, check_in := 1000,
                        check_out := none, duration_minutes := none }] },
               .checkin)) :=
  C7_kiosk_checkin_gate "222222" 20 1000 50 dbKiosk member9 (by decide) (by decide) (by decide)

/-- An open attendance record of `member9` (checked in, never out). -/
def aOpen9 : Attendance :=
  { id := 60, user_id := 9, check_in := 1000, check_out := none, duration_minutes := none }

/-- An expired-by-date membership of `member9`: stored `active` but
`end_date` (day 3) lies before the fixture's today (day 5). -/
def mStale9 : UserMembership :=
  { id := 4, user_id := 9, plan := plan30, start_date := 0, end_date := some 3,
    status := .active }

/-- Database for the C8 counterexample: `member9` has an **open**
attendance record but no longer any active-and-unexpired membership. -/
def dbOpenStale : DB :=
  { users := [member9], memberships := [mStale9], payments := [], walkins := [],
    attendance := [aOpen9], analytics := [] }

/-- C8 counterexample: a user with an open attendance record whose
membership has lapsed.  The membership gate (`views.py:1353-1372`) runs
**before** the check-out branch (`views.py:1374` onwards), so the second
kiosk submission is refused and the open record is *not* closed —
contradicting the claim that every second submission by a user with an
open record closes it. -/
theorem C8_counterexample :
    dbOpenStale.attendance.find?
        (fun a => a.user_id = member9.id && a.check_out.isNone) = some aOpen9 ∧
      kiosk_login "222222" 5 2000 51 dbOpenStale = .error .noActiveMembership := by
  decide

/-- C8 (amended): for a user with an open attendance record **and** a
subscription with stored status `active` and `end_date ≥ today`, a
second kiosk submission closes the record: `check_out := now` and
`duration_minutes = ⌊(check_out − check_in) / 60⌋` (Python's `int()`
truncation agrees with the floor since the delta is nonnegative). -/
theorem C8_kiosk_checkout (pin : String) (today now : Int) (newAid : Nat)
    (db : DB) (u : GymUser) (a : Attendance)
    (hfmt : validPinFormat pin = true)
    (huser : db.users.find? (fun v => v.kiosk_pin = some pin && v.role = Role.member) = some u)
    (hact : hasActiveNonExpired today u.id db.memberships = true)
    (hopen : db.attendance.find? (fun b => b.user_id = u.id && b.check_out.isNone) = some a)
    (hle : a.check_in ≤ now) :
    kiosk_login pin today now newAid db =
      .ok ({ db with
               attendance := db.attendance.map (fun b =>
                 if b.id = a.id then
                   { a with check_out := some now,
                            duration_minutes := some (Int.fdiv (now - a.check_in) 60) }
                 else b) },
           .checkout (some (Int.fdiv (now - a.check_in) 60))) := by
  have hdiv : Int.tdiv (now - a.check_in) 60 = Int.fdiv (now - a.check_in) 60 := by
    rw [Int.tdiv_eq_ediv (by omega) (by norm_num), Int.fdiv_eq_ediv _ (by norm_num)]
  simp [kiosk_login, hfmt, huser, hact, hopen, Attendance.save, hdiv]

/-- Database for the check-out witness: `member9` with a valid
membership and the open record `aOpen9`. -/
def dbCheckout : DB :=
  { users := [member9], memberships := [mActive9], payments := [], walkins := [],
    attendance := [aOpen9], analytics := [] }

/-- C8 witness: checking out at t = 4723 after checking in at t = 1000
yields 62 whole minutes. -/
theorem C8_witness :
    kiosk_login "222222" 20 4723 52 dbCheckout =
      .ok ({ dbCheckout with
               attendance := dbCheckout.attendance.map (fun b =>
                 if b.id = aOpen9.id then
                   { aOpen9 with check_out := some 4723,
                                 duration_minutes := some (Int.fdiv (4723 - aOpen9.check_in) 60) }
                 else b) },
           .checkout (some (Int.fdiv (4723 - aOpen9.check_in) 60))) :=
  C8_kiosk_checkout "222222" 20 4723 52 dbCheckout member9 aOpen9
    (by decide) (by decide) (by decide) (by decide) (by decide)

/-! ## C9 — analytics recompute idempotence -/

/-- Overwriting the counters of a row never changes its `date` key, so
applying the analytics upsert twice with the same values equals
applying it once. -/
theorem upsertAnalytics_idem (d : Int) (tm tp : Nat) (ts : Int)
    (rows : List AnalyticsRow) :
    upsertAnalytics d tm tp ts (upsertAnalytics d tm tp ts rows) =
      upsertAnalytics d tm tp ts rows := by
  unfold upsertAnalytics
  by_cases h0 : rows.any (fun r => decide (r.date = d)) = true
  · simp only [h0, if_true]
    have hany : ((rows.map (fun r => if r.date = d then
        ⟨r.date, tm, tp, ts⟩ else r)).any (fun r => decide (r.date = d))) = true := by
      rw [List.any_map]
      rcases List.any_eq_true.mp h0 with ⟨x, hx, hpx⟩
      refine List.any_eq_true.mpr ⟨x, hx, ?_⟩
      by_cases hxd : x.date = d <;> simp_all [Function.comp]
    simp only [hany, if_true, List.map_map]
    refine List.map_congr_left ?_
    intro r _
    by_cases hrd : r.date = d <;> simp [Function.comp, hrd]
  · rw [if_neg h0]
    have hall := List.any_eq_false.mp (Bool.not_eq_true _ ▸ h0)
    have hany : ((rows ++ [(⟨d, tm, tp, ts⟩ : AnalyticsRow)]).any
        (fun r => decide (r.date = d))) = true := by
      refine List.any_eq_true.mpr ⟨_, List.mem_append_right _ (List.mem_singleton_self _), ?_⟩
      simp
    rw [if_pos hany, List.map_append]
    have hid : rows.map (fun r => if r.date = d then
        ⟨r.date, tm, tp, ts⟩ else r) = rows := by
      have hpt : ∀ r ∈ rows, (if r.date = d then
          (⟨r.date, tm, tp, ts⟩ : AnalyticsRow) else r) = r := by
        intro r hr
        have : ¬ r.date = d := by simpa using hall r hr
        simp [this]
      simp [List.map_congr_left hpt]
    rw [hid]
    simp

/-- After an upsert, exactly one analytics row carries the target date
(given the at-most-one the UNIQUE constraint guarantees beforehand). -/
theorem upsertAnalytics_countP (d : Int) (tm tp : Nat) (ts : Int)
    (rows : List AnalyticsRow)
    (h : rows.countP (fun r => decide (r.date = d)) ≤ 1) :
    (upsertAnalytics d tm tp ts rows).countP (fun r => decide (r.date = d)) = 1 := by
  unfold upsertAnalytics
  by_cases h0 : rows.any (fun r => decide (r.date = d)) = true
  · simp only [h0, if_true]
    have hmapcount : ((rows.map (fun r => if r.date = d then
        ⟨r.date, tm, tp, ts⟩ else r)).countP (fun r => decide (r.date = d))) =
        rows.countP (fun r => decide (r.date = d)) := by
      rw [List.countP_map]
      refine List.countP_congr ?_
      intro r _
      by_cases hrd : r.date = d <;> simp [Function.comp, hrd]
    rw [hmapcount]
    rcases List.any_eq_true.mp h0 with ⟨x, hx, hpx⟩
    have hpos : 0 < rows.countP (fun r => decide (r.date = d)) :=
      List.countP_pos_iff.mpr ⟨x, hx, hpx⟩
    omega
  · rw [if_neg h0]
    have hall := List.any_eq_false.mp (Bool.not_eq_true _ ▸ h0)
    have hzero : rows.countP (fun r => decide (r.date = d)) = 0 :=
      List.countP_eq_zero.mpr hall
    rw [List.countP_append, hzero]
    simp [List.countP_cons]

/-- C9: with the `date` UNIQUE constraint in force (at most one
snapshot row per date), running the daily analytics recompute twice in
succession — nothing else touching the tables in between — changes
nothing the second time, and exactly one snapshot row for the target
date exists afterwards. -/
theorem C9_analytics_idempotent (d : Int) (db : DB)
    (h : db.analytics.countP (fun r => decide (r.date = d)) ≤ 1) :
    generate_daily_report d (generate_daily_report d db) = generate_daily_report d db ∧
      (generate_daily_report d db).analytics.countP (fun r => decide (r.date = d)) = 1 := by
  constructor
  · show generate_daily_report d (generate_daily_report d db) = generate_daily_report d db
    unfold generate_daily_report
    simp only []
    congr 1
    exact upsertAnalytics_idem _ _ _ _ _
  · show (generate_daily_report d db).analytics.countP (fun r => decide (r.date = d)) = 1
    unfold generate_daily_report
    exact upsertAnalytics_countP _ _ _ _ _ h

/-- C9 witness: the recompute run twice on the kiosk fixture database
(no snapshot rows yet) for date 20. -/
theorem C9_witness :
    generate_daily_report 20 (generate_daily_report 20 dbKiosk) =
        generate_daily_report 20 dbKiosk ∧
      (generate_daily_report 20 dbKiosk).analytics.countP
          (fun r => decide (r.date = 20)) = 1 :=
  C9_analytics_idempotent 20 dbKiosk (by decide)

/-! ## C1 — payment confirmation -/

/-- C1 (amended): confirming a `pending` payment (by a staff/admin
actor) marks it `confirmed` with approver and approval time recorded
and its reference number untouched; its subscription is set to
`active` **provided its `end_date` has not already passed** (otherwise
`UserMembership.save` forces `expired` — see `C1_counterexample`); a
paying user without a kiosk PIN is issued a fresh 6-digit PIN held by
no user before; and a second confirm of the same payment is a 404
(`get_object_or_404(..., status='pending')`) that changes nothing. -/
theorem C1_confirm_payment (actor : GymUser) (pid : Nat) (today now : Int)
    (dateStr : String) (refCands pinCands : List Suffix6) (db : DB)
    (p : Payment) (u : GymUser) (r : String)
    (hA : actor.is_staff_or_admin = true)
    (hfind : db.payments.find? (fun q => q.id = pid && q.status = PayStatus.pending) = some p)
    (href : p.reference_no = some r)
    (hmem : ∃ m ∈ db.memberships, m.id = p.membership_id)
    (hend : ∀ m ∈ db.memberships, m.id = p.membership_id →
        ∃ e, m.end_date = some e ∧ today ≤ e)
    (hu : db.users.find? (fun v => v.id = p.user_id) = some u)
    (hupin : u.kiosk_pin = none)
    (hcand : ∃ c ∈ pinCands, ∀ v ∈ db.users, ¬ v.kiosk_pin = some c.render) :
    ∃ db', confirm_payment actor pid today now dateStr refCands pinCands db = .ok db' ∧
      (∀ q ∈ db'.payments, q.id = pid →
          q.status = PayStatus.confirmed ∧ q.approved_by = some actor.id ∧
            q.approved_at = some now ∧ q.reference_no = some r) ∧
      (∃ m' ∈ db'.memberships, m'.id = p.membership_id) ∧
      (∀ m' ∈ db'.memberships, m'.id = p.membership_id → m'.status = MStatus.active) ∧
      (∀ v ∈ db'.users, v.id = p.user_id →
          ∃ s, v.kiosk_pin = some s ∧ s.length = 6 ∧
            (∀ ch ∈ s.toList, ch.isDigit = true) ∧
            ∀ w ∈ db.users, ¬ w.kiosk_pin = some s) ∧
      confirm_payment actor pid today now dateStr refCands pinCands db' =
        .error .notFound := by
  -- facts packed into the find? results
  have hp := List.find?_some hfind
  simp only [Bool.and_eq_true, decide_eq_true_eq] at hp
  obtain ⟨hpid, hpst⟩ := hp
  have huid : u.id = p.user_id := by
    have := List.find?_some hu
    simpa using this
  -- the PIN draw that succeeds
  have hgen_some : (pinCands.find?
      (fun c => !(db.users.any (fun v => v.kiosk_pin = some c.render)))).isSome := by
    rw [List.find?_isSome]
    obtain ⟨c, hcmem, hcf⟩ := hcand
    refine ⟨c, hcmem, ?_⟩
    simp only [Bool.not_eq_true', List.any_eq_false, decide_eq_true_eq]
    exact hcf
  obtain ⟨c0, hc0⟩ := Option.isSome_iff_exists.mp hgen_some
  have hc0fresh : ∀ v ∈ db.users, ¬ v.kiosk_pin = some c0.render := by
    have := List.find?_some hc0
    simpa only [Bool.not_eq_true', List.any_eq_false, decide_eq_true_eq] using this
  have hgen : GymUser.generate_kiosk_pin pinCands db.users u =
      some (db.users.map (fun v =>
        if v.id = u.id then GymUser.save { u with kiosk_pin := some c0.render } else v),
        c0.render) := by
    unfold GymUser.generate_kiosk_pin
    rw [hc0]
  -- run the handler once
  have hrun : confirm_payment actor pid today now dateStr refCands pinCands db =
      .ok { db with
              payments := db.payments.map
                (fun q => if q.id = p.id then Payment.confirmRow actor.id now p else q),
              memberships := db.memberships.map
                (fun m => if m.id = p.membership_id then
                  UserMembership.save today { m with status := MStatus.active } else m),
              users := db.users.map
                (fun v => if v.id = u.id then
                  GymUser.save { u with kiosk_pin := some c0.render } else v) } := by
    simp only [confirm_payment, hA, Bool.not_true, Bool.false_eq_true, if_false, hfind,
      Payment.save, Payment.confirmRow, href, hu, hupin, Option.isNone_none, if_true, hgen]
  refine ⟨_, hrun, ?_, ?_, ?_, ?_, ?_⟩
  · intro q hq hqid
    simp only [List.mem_map] at hq
    obtain ⟨q0, hq0, rfl⟩ := hq
    by_cases hq0id : q0.id = p.id
    · simp [hq0id, Payment.confirmRow, href]
    · exfalso
      rw [if_neg hq0id] at hqid
      exact hq0id (hqid.trans hpid.symm)
  · obtain ⟨m, hm, hmid⟩ := hmem
    refine ⟨UserMembership.save today { m with status := MStatus.active }, ?_, ?_⟩
    · exact List.mem_map.mpr ⟨m, hm, by rw [if_pos hmid]⟩
    · simpa [UserMembership.save] using hmid
  · intro m' hm' hm'id
    simp only [List.mem_map] at hm'
    obtain ⟨m, hm, rfl⟩ := hm'
    by_cases hmid : m.id = p.membership_id
    · obtain ⟨e, he, hle⟩ := hend m hm hmid
      simp only [hmid, if_true]
      simp [UserMembership.save, he, not_lt.mpr hle]
    · exfalso
      rw [if_neg hmid] at hm'id
      exact hmid hm'id
  · intro v hv hvid
    simp only [List.mem_map] at hv
    obtain ⟨v0, hv0, rfl⟩ := hv
    by_cases hv0id : v0.id = u.id
    · refine ⟨c0.render, ?_, Suffix6.render_length c0, Suffix6.render_digits c0, hc0fresh⟩
      simp only [hv0id, if_true]
      exact GymUser.save_kiosk_pin _
    · exfalso
      rw [if_neg hv0id] at hvid
      exact hv0id (hvid.trans huid.symm)
  · have hnone : (db.payments.map (fun q =>
        if q.id = p.id then Payment.confirmRow actor.id now p else q)).find?
          (fun q => q.id = pid && q.status = PayStatus.pending) = none := by
      refine List.find?_eq_none.mpr ?_
      intro x hx
      simp only [List.mem_map] at hx
      obtain ⟨q0, hq0, rfl⟩ := hx
      by_cases hq0id : q0.id = p.id
      · simp [hq0id, Payment.confirmRow]
      · simp only [if_neg hq0id, Bool.and_eq_true, decide_eq_true_eq, not_and]
        intro hcontra
        exact absurd (hcontra.trans hpid.symm) hq0id
    simp only [confirm_payment, hA, Bool.not_true, Bool.false_eq_true, if_false]
    rw [hnone]

/-- A pending membership (id 5) of `member7`, not yet expired. -/
def mPending5 : UserMembership :=
  { id := 5, user_id := 7, plan := plan30, start_date := 10, end_date := some 40,
    status := .pending }

/-- A pending payment (id 1) of `member7` for `mPending5`. -/
def payPending : Payment :=
  { id := 1, user_id := 7, membership_id := 5, amount := 1500, payment_date := 0,
    reference_no := some "PAY-20261012-123456", status := .pending,
    approved_by := none, approved_at := none, rejection_reason := none }

/-- Database for the confirmation witness. -/
def dbConfirm : DB :=
  { users := [member7, staff8], memberships := [mPending5], payments := [payPending],
    walkins := [], attendance := [], analytics := [] }

/-- C1 witness: the confirmation theorem evaluated at today = 20 on
`dbConfirm` (staff actor, payment id 1, one PIN draw `"111111"`). -/
theorem C1_witness :
    ∃ db', confirm_payment staff8 1 20 999 "20261012" [] [s111111] dbConfirm = .ok db' ∧
      (∀ q ∈ db'.payments, q.id = 1 →
          q.status = PayStatus.confirmed ∧ q.approved_by = some staff8.id ∧
            q.approved_at = some 999 ∧ q.reference_no = some "PAY-20261012-123456") ∧
      (∃ m' ∈ db'.memberships, m'.id = payPending.membership_id) ∧
      (∀ m' ∈ db'.memberships, m'.id = payPending.membership_id →
          m'.status = MStatus.active) ∧
      (∀ v ∈ db'.users, v.id = payPending.user_id →
          ∃ s, v.kiosk_pin = some s ∧ s.length = 6 ∧
            (∀ ch ∈ s.toList, ch.isDigit = true) ∧
            ∀ w ∈ dbConfirm.users, ¬ w.kiosk_pin = some s) ∧
      confirm_payment staff8 1 20 999 "20261012" [] [s111111] db' =
        .error .notFound :=
  C1_confirm_payment staff8 1 20 999 "20261012" [] [s111111] dbConfirm payPending member7
    "PAY-20261012-123456" (by decide) (by decide) (by decide) (by decide)
    (by intro m hm hmid; simp only [dbConfirm, List.mem_singleton] at hm; subst hm;
        exact ⟨40, rfl, by norm_num⟩)
    (by decide) (by decide) (by decide)

/-- A pending payment (id 2) of `member9` for the date-expired
membership `mStale9`. -/
def payPendingStale : Payment :=
  { id := 2, user_id := 9, membership_id := 4, amount := 1500, payment_date := 0,
    reference_no := some "PAY-20261012-999999", status := .pending,
    approved_by := none, approved_at := none, rejection_reason := none }

/-- Database for the stale-confirmation counterexamples: the pending
payment's membership is stored `active`-claimable but its `end_date`
(day 3) lies before today (day 5); `member9` already holds a PIN. -/
def dbConfirmStale : DB :=
  { users := [member9, staff8], memberships := [mStale9], payments := [payPendingStale],
    walkins := [], attendance := [], analytics := [] }

/-- C1 counterexample: confirming a pending payment whose membership's
`end_date` has already passed succeeds, but `UserMembership.save`
(`models.py:227-228`) overrides the status the confirm just wrote, so
the subscription ends up `expired`, not `active`. -/
theorem C1_counterexample :
    payPendingStale.status = PayStatus.pending ∧
      mStale9.end_date = some 3 ∧ (3 : Int) < 5 ∧
      ((confirm_payment staff8 2 5 1000 "20261012" [] [] dbConfirmStale).map
          (fun db' => db'.memberships.map (·.status))) = .ok [MStatus.expired] := by
  decide

/-! ## C4 — payment rejection -/

/-- C4 (amended): rejecting a `pending` payment (staff/admin actor)
marks it `rejected` with the supplied reason recorded, and sets its
subscription to `cancelled` **provided its `end_date` has not already
passed** (otherwise `UserMembership.save` forces `expired` — see
`C4_counterexample`; either way the subscription is not `active`);
afterwards no invocation of confirm or reject on that payment — at any
later time, with any random draws — succeeds: both are 404s that
change nothing. -/
theorem C4_reject_payment (actor : GymUser) (pid : Nat) (reason : String)
    (today now : Int) (dateStr : String) (refCands : List Suffix6) (db : DB)
    (p : Payment) (r : String)
    (hA : actor.is_staff_or_admin = true)
    (hfind : db.payments.find? (fun q => q.id = pid && q.status = PayStatus.pending) = some p)
    (href : p.reference_no = some r)
    (hmem : ∃ m ∈ db.memberships, m.id = p.membership_id)
    (hend : ∀ m ∈ db.memberships, m.id = p.membership_id →
        ∃ e, m.end_date = some e ∧ today ≤ e) :
    ∃ db', reject_payment actor pid reason today now dateStr refCands db = .ok db' ∧
      (∀ q ∈ db'.payments, q.id = pid →
          q.status = PayStatus.rejected ∧ q.approved_by = some actor.id ∧
            q.approved_at = some now ∧ q.rejection_reason = some reason ∧
            q.reference_no = some r) ∧
      (∃ m' ∈ db'.memberships, m'.id = p.membership_id) ∧
      (∀ m' ∈ db'.memberships, m'.id = p.membership_id →
          m'.status = MStatus.cancelled) ∧
      (∀ reason2 today2 now2 dateStr2 refCands2,
          reject_payment actor pid reason2 today2 now2 dateStr2 refCands2 db' =
            .error .notFound) ∧
      (∀ today2 now2 dateStr2 refCands2 pinCands2,
          confirm_payment actor pid today2 now2 dateStr2 refCands2 pinCands2 db' =
            .error .notFound) := by
  have hp := List.find?_some hfind
  simp only [Bool.and_eq_true, decide_eq_true_eq] at hp
  obtain ⟨hpid, hpst⟩ := hp
  have hrun : reject_payment actor pid reason today now dateStr refCands db =
      .ok { db with
              payments := db.payments.map
                (fun q => if q.id = p.id then Payment.rejectRow actor.id now reason p else q),
              memberships := db.memberships.map
                (fun m => if m.id = p.membership_id then
                  UserMembership.save today { m with status := MStatus.cancelled } else m) } := by
    simp only [reject_payment, hA, Bool.not_true, Bool.false_eq_true, if_false, hfind,
      Payment.save, Payment.rejectRow, href]
  have hnone : (db.payments.map (fun q =>
      if q.id = p.id then Payment.rejectRow actor.id now reason p else q)).find?
        (fun q => q.id = pid && q.status = PayStatus.pending) = none := by
    refine List.find?_eq_none.mpr ?_
    intro x hx
    simp only [List.mem_map] at hx
    obtain ⟨q0, hq0, rfl⟩ := hx
    by_cases hq0id : q0.id = p.id
    · simp [hq0id, Payment.rejectRow]
    · simp only [if_neg hq0id, Bool.and_eq_true, decide_eq_true_eq, not_and]
      intro hcontra
      exact absurd (hcontra.trans hpid.symm) hq0id
  refine ⟨_, hrun, ?_, ?_, ?_, ?_, ?_⟩
  · intro q hq hqid
    simp only [List.mem_map] at hq
    obtain ⟨q0, hq0, rfl⟩ := hq
    by_cases hq0id : q0.id = p.id
    · simp [hq0id, Payment.rejectRow, href]
    · exfalso
      rw [if_neg hq0id] at hqid
      exact hq0id (hqid.trans hpid.symm)
  · obtain ⟨m, hm, hmid⟩ := hmem
    refine ⟨UserMembership.save today { m with status := MStatus.cancelled }, ?_, ?_⟩
    · exact List.mem_map.mpr ⟨m, hm, by rw [if_pos hmid]⟩
    · simpa [UserMembership.save] using hmid
  · intro m' hm' hm'id
    simp only [List.mem_map] at hm'
    obtain ⟨m, hm, rfl⟩ := hm'
    by_cases hmid : m.id = p.membership_id
    · obtain ⟨e, he, hle⟩ := hend m hm hmid
      simp only [hmid, if_true]
      simp [UserMembership.save, he, not_lt.mpr hle]
    · exfalso
      rw [if_neg hmid] at hm'id
      exact hmid hm'id
  · intro reason2 today2 now2 dateStr2 refCands2
    simp only [reject_payment, hA, Bool.not_true, Bool.false_eq_true, if_false]
    rw [hnone]
  · intro today2 now2 dateStr2 refCands2 pinCands2
    simp only [confirm_payment, hA, Bool.not_true, Bool.false_eq_true, if_false]
    rw [hnone]

/-- C4 witness: the rejection theorem evaluated at today = 20 on
`dbConfirm` (staff actor, payment id 1, reason `"fake receipt"`). -/
theorem C4_witness :
    ∃ db', reject_payment staff8 1 "fake receipt" 20 999 "20261012" [] dbConfirm = .ok db' ∧
      (∀ q ∈ db'.payments, q.id = 1 →
          q.status = PayStatus.rejected ∧ q.approved_by = some staff8.id ∧
            q.approved_at = some 999 ∧ q.rejection_reason = some "fake receipt" ∧
            q.reference_no = some "PAY-20261012-123456") ∧
      (∃ m' ∈ db'.memberships, m'.id = payPending.membership_id) ∧
      (∀ m' ∈ db'.memberships, m'.id = payPending.membership_id →
          m'.status = MStatus.cancelled) ∧
      (∀ reason2 today2 now2 dateStr2 refCands2,
          reject_payment staff8 1 reason2 today2 now2 dateStr2 refCands2 db' =
            .error .notFound) ∧
      (∀ today2 now2 dateStr2 refCands2 pinCands2,
          confirm_payment staff8 1 today2 now2 dateStr2 refCands2 pinCands2 db' =
            .error .notFound) :=
  C4_reject_payment staff8 1 "fake receipt" 20 999 "20261012" [] dbConfirm payPending
    "PAY-20261012-123456" (by decide) (by decide) (by decide) (by decide)
    (by intro m hm hmid; simp only [dbConfirm, List.mem_singleton] at hm; subst hm;
        exact ⟨40, rfl, by norm_num⟩)

/-- C4 counterexample: rejecting a pending payment whose membership's
`end_date` has already passed marks the payment `rejected`, but the
save-hook turns the subscription `expired` rather than `cancelled`. -/
theorem C4_counterexample :
    payPendingStale.status = PayStatus.pending ∧
      mStale9.end_date = some 3 ∧ (3 : Int) < 5 ∧
      ((reject_payment staff8 2 "late" 5 1000 "20261012" [] dbConfirmStale).map
          (fun db' => db'.memberships.map (·.status))) = .ok [MStatus.expired] := by
  decide

/-! ## C5 — plan purchase -/

/-- C5 (amended): for a **member-role** requester and an active plan
with nonnegative duration, when no stored-`active` membership of the
requester exists (that stored-status existence query is the code's
"currently active" check, `views.py:556-563`), the purchase appends
exactly one `pending` membership starting today with
`end_date = today + duration_days` and exactly one `pending` payment
for `plan.price` carrying a freshly generated unused `PAY-…` reference;
when such a membership exists, the purchase is refused and nothing is
appended.  Non-member requesters are always refused
(`C5_counterexample`). -/
theorem C5_subscribe_plan (requser : GymUser) (plan : MembershipPlan)
    (today now : Int) (dateStr : String) (refCands : List Suffix6)
    (newMid newPid : Nat) (db : DB)
    (hrole : requser.role = Role.member)
    (hplan : plan.is_active = true)
    (hdur : 0 ≤ plan.duration_days)
    (hcand : ∃ c ∈ refCands, ¬ mkReference "PAY" dateStr c ∈ refsOf db.payments) :
    (db.memberships.any (fun m => m.user_id = requser.id && m.status = MStatus.active) =
        false →
      ∃ db' r, subscribe_plan requser plan today now dateStr refCands newMid newPid db =
          .ok db' ∧
        db'.memberships = db.memberships ++
          [{ id := newMid, user_id := requser.id, plan := plan, start_date := today,
             end_date := some (today + plan.duration_days), status := MStatus.pending }] ∧
        db'.payments = db.payments ++
          [{ id := newPid, user_id := requser.id, membership_id := newMid,
             amount := plan.price, payment_date := now, reference_no := some r,
             status := PayStatus.pending, approved_by := none, approved_at := none,
             rejection_reason := none }] ∧
        (¬ r ∈ refsOf db.payments) ∧
        (∃ s ∈ refCands, r = "PAY" ++ "-" ++ dateStr ++ "-" ++ s.render)) ∧
    (db.memberships.any (fun m => m.user_id = requser.id && m.status = MStatus.active) =
        true →
      subscribe_plan requser plan today now dateStr refCands newMid newPid db =
        .error .alreadyActive) := by
  constructor
  · intro h
    have hfind_some : (refCands.find?
        (fun c => !(decide (mkReference "PAY" dateStr c ∈ refsOf db.payments)))).isSome := by
      rw [List.find?_isSome]
      obtain ⟨c, hcmem, hcf⟩ := hcand
      exact ⟨c, hcmem, by simpa using hcf⟩
    obtain ⟨c0, hc0⟩ := Option.isSome_iff_exists.mp hfind_some
    have hc0fresh : ¬ mkReference "PAY" dateStr c0 ∈ refsOf db.payments := by
      have := List.find?_some hc0
      simpa using this
    have hc0mem : c0 ∈ refCands := List.mem_of_find?_eq_some hc0
    have hgen : generate_reference_number "PAY" dateStr refCands (refsOf db.payments) =
        some (mkReference "PAY" dateStr c0) := by
      unfold generate_reference_number
      rw [hc0]
      rfl
    have hnot : ¬ (today + plan.duration_days < today) := by omega
    have hrun : subscribe_plan requser plan today now dateStr refCands newMid newPid db =
        .ok { db with
                memberships := db.memberships ++
                  [{ id := newMid, user_id := requser.id, plan := plan, start_date := today,
                     end_date := some (today + plan.duration_days),
                     status := MStatus.pending }],
                payments := db.payments ++
                  [{ id := newPid, user_id := requser.id, membership_id := newMid,
                     amount := plan.price, payment_date := now,
                     reference_no := some (mkReference "PAY" dateStr c0),
                     status := PayStatus.pending, approved_by := none, approved_at := none,
                     rejection_reason := none }] } := by
      simp only [subscribe_plan, hrole, hplan, h, Bool.not_true, Bool.false_eq_true,
        if_false, decide_True, Bool.not_false, Bool.true_eq_false, if_true,
        UserMembership.save, Payment.save, hgen, hnot, Option.map_some]
      rfl
    exact ⟨_, mkReference "PAY" dateStr c0, hrun, rfl, rfl, hc0fresh,
      ⟨c0, hc0mem, by simp [mkReference]⟩⟩
  · intro h
    simp only [subscribe_plan, hrole, hplan, h, Bool.not_true, Bool.false_eq_true, if_false,
      decide_True, Bool.not_false, Bool.true_eq_false, if_true]

/-- Database with no memberships or payments at all. -/
def dbEmpty7 : DB :=
  { users := [member7, staff8], memberships := [], payments := [], walkins := [],
    attendance := [], analytics := [] }

/-- C5 witness: the purchase theorem evaluated for `member7` buying
`plan30` on day 20 over the empty database. -/
theorem C5_witness :
    (dbEmpty7.memberships.any
        (fun m => m.user_id = member7.id && m.status = MStatus.active) = false →
      ∃ db' r, subscribe_plan member7 plan30 20 999 "20261012" [s123456] 10 11 dbEmpty7 =
          .ok db' ∧
        db'.memberships = dbEmpty7.memberships ++
          [{ id := 10, user_id := member7.id, plan := plan30, start_date := 20,
             end_date := some (20 + plan30.duration_days), status := MStatus.pending }] ∧
        db'.payments = dbEmpty7.payments ++
          [{ id := 11, user_id := member7.id, membership_id := 10,
             amount := plan30.price, payment_date := 999, reference_no := some r,
             status := PayStatus.pending, approved_by := none, approved_at := none,
             rejection_reason := none }] ∧
        (¬ r ∈ refsOf dbEmpty7.payments) ∧
        (∃ s ∈ [s123456], r = "PAY" ++ "-" ++ "20261012" ++ "-" ++ s.render)) ∧
    (dbEmpty7.memberships.any
        (fun m => m.user_id = member7.id && m.status = MStatus.active) = true →
      subscribe_plan member7 plan30 20 999 "20261012" [s123456] 10 11 dbEmpty7 =
        .error .alreadyActive) :=
  C5_subscribe_plan member7 plan30 20 999 "20261012" [s123456] 10 11 dbEmpty7
    (by decide) (by decide) (by decide) ⟨s123456, by decide, by decide⟩

/-- C5 counterexample: a staff user with **no** membership at all, an
active plan — yet the purchase is refused (`views.py:550-552` only
allows role `member`), creating neither subscription nor payment; the
claim quantifies over every user. -/
theorem C5_counterexample :
    plan30.is_active = true ∧
      dbEmpty7.memberships.any
        (fun m => m.user_id = staff8.id && m.status = MStatus.active) = false ∧
      subscribe_plan staff8 plan30 20 999 "20261012" [s123456] 10 11 dbEmpty7 =
        .error .onlyMembers := by
  decide
